import Mathlib

/-!
Verification of `Implementing_Router_Query.py` (InsightPDF Streamlit app).

Shallow embedding: the script's own glue code is translated line by line;
every call into the external library (llama_index) or the remote API is a
field of an abstract `Lib` record, so that theorems quantify over every
possible library behaviour.  Fallible external calls return
`Except String`; the observable actions of a run are recorded as a list
of `Event`s in program order.
-/

/-- A document as returned by `SimpleDirectoryReader(...).load_data()`. -/
structure Document where
  text : String
deriving DecidableEq, Repr

/-- A node produced by the sentence splitter. -/
structure Node where
  text : String
deriving DecidableEq, Repr

/-- `SummaryIndex(nodes=nodes)`: stores the node list (no remote call). -/
structure SummaryIndex where
  nodes : List Node
deriving DecidableEq, Repr

/-- `VectorStoreIndex(nodes=nodes)`: stores the nodes together with the
embeddings computed for them at construction time (a remote call). -/
structure VectorStoreIndex where
  nodes : List Node
  embeddings : List (List Int)
deriving DecidableEq, Repr

/-- `ToolMetadata`: in the library the `name` keyword is optional and
defaults to `None`; the script passes only `description`. -/
structure ToolMetadata where
  name : Option String := none
  description : String
deriving DecidableEq, Repr

/-- The two query-engine configurations the script builds.
`summary` records `response_mode` and `use_async` as passed at line 43;
`vector` is `vector_index.as_query_engine()` with defaults. -/
inductive QueryEngine where
  | summary (index : SummaryIndex) (response_mode : String) (use_async : Bool)
  | vector (index : VectorStoreIndex)
deriving DecidableEq, Repr

/-- `QueryEngineTool(query_engine=..., metadata=...)`. -/
structure QueryEngineTool where
  query_engine : QueryEngine
  metadata : ToolMetadata
deriving DecidableEq, Repr

/-- The selector kinds the script can construct. -/
inductive Selector where
  | llmSingle
deriving DecidableEq, Repr

/-- `LLMSingleSelector.from_defaults()`. -/
def LLMSingleSelector.from_defaults : Selector := Selector.llmSingle

/-- `RouterQueryEngine(selector=..., query_engine_tools=..., verbose=...)`. -/
structure RouterQueryEngine where
  selector : Selector
  query_engine_tools : List QueryEngineTool
  verbose : Bool
deriving DecidableEq, Repr

/-- Observable actions of a run, in program order. -/
inductive Event where
  | renderTitle
  | createTempFile (delete : Bool) (suffix : String) (path : String)
  | fileWrite (path : String) (contents : List Nat)
  | loadData (path : String)
  | splitNodes (chunk_size : Nat)
  | buildSummaryIndex
  | buildVectorIndex
  | selectorCall (query : String)
  | toolQuery (toolIdx : Nat) (query : String)
  | writeText (s : String)
  | renderAnswer (answer : String)
  | unlinkTemp (path : String)
  | showInfo (msg : String)
  | sidebarTitle (s : String)
  | sidebarInfo (s : String)
deriving DecidableEq, Repr

/-- Is the event a pure display action (renders something, touches
no file, index or remote API)? -/
def Event.isDisplay : Event → Bool
  | Event.renderTitle => true
  | Event.writeText _ => true
  | Event.renderAnswer _ => true
  | Event.showInfo _ => true
  | Event.sidebarTitle _ => true
  | Event.sidebarInfo _ => true
  | _ => false

/-- The external library and remote API, abstracted: each field is one
kind of call the script makes.  `tmp_path` is the fresh path chosen by
`tempfile.NamedTemporaryFile` for this run. -/
structure Lib where
  load_data : String → Except String (List Document)
  get_nodes : Nat → List Document → Except String (List Node)
  embed : List Node → Except String (List (List Int))
  select : List ToolMetadata → String → Except String Nat
  summary_answer : SummaryIndex → String → Bool → String → Except String String
  vector_answer : VectorStoreIndex → String → Except String String
  tmp_path : String

/-- `SentenceSplitter(chunk_size=1024)` (line 31). -/
structure SentenceSplitter where
  chunk_size : Nat
deriving DecidableEq, Repr

/-- `splitter.get_nodes_from_documents(documents)` (line 32): a library
call parameterised by the splitter's configured chunk size. -/
def SentenceSplitter.get_nodes_from_documents (lib : Lib) (s : SentenceSplitter)
    (documents : List Document) : Except String (List Node) :=
  lib.get_nodes s.chunk_size documents

/-- Answering a query with one query engine: dispatches to the library
call matching the engine's index, passing the engine's configuration. -/
def QueryEngine.answer (lib : Lib) : QueryEngine → String → Except String String
  | QueryEngine.summary index response_mode use_async, q =>
      lib.summary_answer index response_mode use_async q
  | QueryEngine.vector index, q => lib.vector_answer index q

/-- Modelled from the spec: `RouterQueryEngine.query` is library code not
in the repository.  Per the spec, the router "picks a tool per incoming
question using an LLM call" and "forwards it to whichever underlying tool
the LLM selector chooses": one selector call, then exactly the chosen
tool answers.  An out-of-range selector index is a library error. -/
def RouterQueryEngine.query (lib : Lib) (r : RouterQueryEngine) (q : String) :
    Except String String × List Event :=
  match lib.select (r.query_engine_tools.map QueryEngineTool.metadata) q with
  | Except.error e => (Except.error e, [Event.selectorCall q])
  | Except.ok i =>
    match r.query_engine_tools.get? i with
    | none => (Except.error "selector index out of range", [Event.selectorCall q])
    | some tool =>
      (tool.query_engine.answer lib q, [Event.selectorCall q, Event.toolQuery i q])

/-- The body of `load_and_process_data` (lines 26–70), translated
statement by statement.  Returns the router engine (or the first library
error) together with the trace of external calls made. -/
def load_and_process_data (lib : Lib) (file_path : String) :
    Except String RouterQueryEngine × List Event :=
  match lib.load_data file_path with
  | Except.error e => (Except.error e, [Event.loadData file_path])
  | Except.ok documents =>
    let splitter : SentenceSplitter := { chunk_size := 1024 }
    match splitter.get_nodes_from_documents lib documents with
    | Except.error e =>
        (Except.error e, [Event.loadData file_path, Event.splitNodes splitter.chunk_size])
    | Except.ok nodes =>
      let summary_index : SummaryIndex := { nodes := nodes }
      match lib.embed nodes with
      | Except.error e =>
          (Except.error e,
           [Event.loadData file_path, Event.splitNodes splitter.chunk_size,
            Event.buildSummaryIndex])
      | Except.ok embs =>
        let vector_index : VectorStoreIndex := { nodes := nodes, embeddings := embs }
        let summary_query_engine := QueryEngine.summary summary_index "tree_summarize" true
        let vector_query_engine := QueryEngine.vector vector_index
        let summary_tool : QueryEngineTool :=
          { query_engine := summary_query_engine,
            metadata := { description := "Useful for summarizing the uploaded PDF." } }
        let vector_tool : QueryEngineTool :=
          { query_engine := vector_query_engine,
            metadata :=
              { description := "Useful for finding similar sentences in the uploaded PDF." } }
        let query_engine : RouterQueryEngine :=
          { selector := LLMSingleSelector.from_defaults,
            query_engine_tools := [summary_tool, vector_tool],
            verbose := true }
        (Except.ok query_engine,
         [Event.loadData file_path, Event.splitNodes splitter.chunk_size,
          Event.buildSummaryIndex, Event.buildVectorIndex])

/-- The `@st.cache_resource` memo table: results of successful calls,
keyed by the argument tuple (here the single `file_path`). -/
abbrev Cache := List (String × RouterQueryEngine)

/-- `@st.cache_resource` applied to `load_and_process_data` (line 25):
on a hit the cached engine is returned and the body does not run; on a
miss the body runs and a successful result is stored.  An exception in
the body propagates and nothing is cached. -/
def cached_load_and_process_data (lib : Lib) (cache : Cache) (file_path : String) :
    Except String (RouterQueryEngine × Cache) × List Event :=
  match cache.lookup file_path with
  | some qe => (Except.ok (qe, cache), [])
  | none =>
    match load_and_process_data lib file_path with
    | (Except.ok qe, evs) => (Except.ok (qe, (file_path, qe) :: cache), evs)
    | (Except.error e, evs) => (Except.error e, evs)

/-- The per-run inputs: the uploaded file's bytes (`None` when no file is
uploaded), the text-input contents, and whether `st.button` returned
`True` on this run. -/
structure RunInput where
  uploaded : Option (List Nat)
  user_query : String
  button_pressed : Bool

/-- The sidebar calls at lines 103–116, executed at the end of every
run that does not raise. -/
def sidebarEvents : List Event :=
  [Event.sidebarTitle "About PDF Query App",
   Event.sidebarInfo
     "This application allows you to query information from any uploaded PDF document. You can ask questions about its content, and the AI will analyze the document to provide answers.",
   Event.sidebarTitle "How to Use",
   Event.sidebarInfo
     "1. Upload a PDF file using the file uploader.\n2. Enter your question in the text box.\n3. Click 'Submit Query' to get a response.\n4. The app will use AI to analyze the PDF and provide an answer."]

/-- The script body (lines 23–116): title, uploader, the
`uploaded_file is not None` branch (temp file, cached setup, optional
query/render, unlink) or the `st.info` branch, then the sidebar.  An
uncaught library error aborts the run at the raising statement. -/
def runApp (lib : Lib) (cache : Cache) (inp : RunInput) :
    Except String Unit × Cache × List Event :=
  match inp.uploaded with
  | none =>
    (Except.ok (), cache,
     [Event.renderTitle, Event.showInfo "Please upload a PDF file to begin."]
       ++ sidebarEvents)
  | some contents =>
    let tmp_file_path := lib.tmp_path
    let evs0 := [Event.renderTitle,
                 Event.createTempFile false ".pdf" tmp_file_path,
                 Event.fileWrite tmp_file_path contents]
    match cached_load_and_process_data lib cache tmp_file_path with
    | (Except.error e, evs) => (Except.error e, cache, evs0 ++ evs)
    | (Except.ok (query_engine, cache'), evs) =>
      if inp.button_pressed then
        match query_engine.query lib inp.user_query with
        | (Except.error e, qevs) => (Except.error e, cache', evs0 ++ evs ++ qevs)
        | (Except.ok response, qevs) =>
          (Except.ok (), cache',
           evs0 ++ evs ++ qevs
             ++ [Event.writeText "Response:", Event.renderAnswer response,
                 Event.unlinkTemp tmp_file_path]
             ++ sidebarEvents)
      else
        (Except.ok (), cache',
         evs0 ++ evs ++ [Event.unlinkTemp tmp_file_path] ++ sidebarEvents)

/-- The trace of a run. -/
def runTrace (lib : Lib) (cache : Cache) (inp : RunInput) : List Event :=
  (runApp lib cache inp).2.2

/-- The result of a run. -/
def runResult (lib : Lib) (cache : Cache) (inp : RunInput) : Except String Unit :=
  (runApp lib cache inp).1

/-! ### Named forms of the objects the setup routine constructs -/

/-- The metadata of the summary tool (line 52). -/
def summaryToolMeta : ToolMetadata :=
  { description := "Useful for summarizing the uploaded PDF." }

/-- The metadata of the vector tool (line 58). -/
def vectorToolMeta : ToolMetadata :=
  { description := "Useful for finding similar sentences in the uploaded PDF." }

/-- The two tools built at lines 50–61, over the given nodes/embeddings. -/
def builtTools (nodes : List Node) (embs : List (List Int)) : List QueryEngineTool :=
  [{ query_engine := QueryEngine.summary { nodes := nodes } "tree_summarize" true,
     metadata := summaryToolMeta },
   { query_engine := QueryEngine.vector { nodes := nodes, embeddings := embs },
     metadata := vectorToolMeta }]

/-- The router built at lines 64–68, over the given nodes/embeddings. -/
def builtRouter (nodes : List Node) (embs : List (List Int)) : RouterQueryEngine :=
  { selector := LLMSingleSelector.from_defaults,
    query_engine_tools := builtTools nodes embs,
    verbose := true }

/-! ### Concrete instances used in witnesses and counterexamples -/

def docsEx : List Document := [{ text := "hello world" }]

def nodesEx : List Node := [{ text := "hello" }, { text := "world" }]

def embsEx : List (List Int) := [[0, 1], [1, 0]]

/-- A library in which every call succeeds. -/
def libEx : Lib :=
  { load_data := fun _ => Except.ok docsEx,
    get_nodes := fun _ _ => Except.ok nodesEx,
    embed := fun _ => Except.ok embsEx,
    select := fun _ _ => Except.ok 0,
    summary_answer := fun _ _ _ _ => Except.ok "a summary of the document",
    vector_answer := fun _ _ => Except.ok "a similar passage",
    tmp_path := "/tmp/upload0.pdf" }

/-- A library whose document loading raises. -/
def libLoadFail : Lib := { libEx with load_data := fun _ => Except.error "boom" }

/-- A library whose chosen tool's query raises (selector picks tool 0,
the summary engine, whose answer call fails). -/
def libQueryFail : Lib :=
  { libEx with summary_answer := fun _ _ _ _ => Except.error "api down" }

/-- The router engine `load_and_process_data` builds under `libEx`. -/
def qeEx : RouterQueryEngine := builtRouter nodesEx embsEx

def inpEx : RunInput :=
  { uploaded := some [37, 13], user_query := "What is this document about?",
    button_pressed := true }

def inpNoButton : RunInput :=
  { uploaded := some [7], user_query := "q", button_pressed := false }

def inpNoFile : RunInput :=
  { uploaded := none, user_query := "What is this document about?",
    button_pressed := false }

/-! ### Helper lemmas (shared, not tied to any one claim) -/

/-- When the three external calls of the body succeed, the setup routine
returns exactly the two-tool router and makes exactly the four external
calls, in order. -/
theorem load_and_process_data_ok (lib : Lib) (file_path : String)
    (docs : List Document) (nodes : List Node) (embs : List (List Int))
    (hload : lib.load_data file_path = Except.ok docs)
    (hn : lib.get_nodes 1024 docs = Except.ok nodes)
    (he : lib.embed nodes = Except.ok embs) :
    load_and_process_data lib file_path =
      (Except.ok (builtRouter nodes embs),
       [Event.loadData file_path, Event.splitNodes 1024,
        Event.buildSummaryIndex, Event.buildVectorIndex]) := by
  simp [load_and_process_data, SentenceSplitter.get_nodes_from_documents,
    hload, hn, he, builtRouter, builtTools, summaryToolMeta, vectorToolMeta,
    LLMSingleSelector.from_defaults]

/-- Routing with the built router: when the selector chooses index `i`
naming tool `tool`, the router makes one selector call and queries that
tool alone. -/
theorem builtRouter_query (lib : Lib) (nodes : List Node) (embs : List (List Int))
    (q : String) (i : Nat) (tool : QueryEngineTool)
    (hsel : lib.select [summaryToolMeta, vectorToolMeta] q = Except.ok i)
    (htool : (builtTools nodes embs).get? i = some tool) :
    (builtRouter nodes embs).query lib q =
      (tool.query_engine.answer lib q, [Event.selectorCall q, Event.toolQuery i q]) := by
  have hmap : (builtTools nodes embs).map QueryEngineTool.metadata =
      [summaryToolMeta, vectorToolMeta] := by
    simp [builtTools]
  rw [List.get?_eq_getElem?] at htool
  simp [RouterQueryEngine.query, builtRouter, hmap, hsel, htool]

/-! ### Claim theorems -/

/-- Claim C1: for every submitted question, the router engine the program
builds has exactly two query-engine tools and an `LLMSingleSelector`;
answering makes one selector call, and the question is answered by the
one chosen tool alone (the trace holds a single `toolQuery`). -/
theorem C1_router_two_tools_single_choice (lib : Lib) (file_path : String)
    (docs : List Document) (nodes : List Node) (embs : List (List Int))
    (hload : lib.load_data file_path = Except.ok docs)
    (hn : lib.get_nodes 1024 docs = Except.ok nodes)
    (he : lib.embed nodes = Except.ok embs) :
    ∃ qe : RouterQueryEngine,
      (load_and_process_data lib file_path).1 = Except.ok qe ∧
      qe.selector = LLMSingleSelector.from_defaults ∧
      qe.query_engine_tools.length = 2 ∧
      (∀ q i tool,
        lib.select (qe.query_engine_tools.map QueryEngineTool.metadata) q = Except.ok i →
        qe.query_engine_tools.get? i = some tool →
        qe.query lib q =
          (tool.query_engine.answer lib q,
           [Event.selectorCall q, Event.toolQuery i q])) := by
  have hmap : (builtTools nodes embs).map QueryEngineTool.metadata =
      [summaryToolMeta, vectorToolMeta] := by
    simp [builtTools]
  refine ⟨builtRouter nodes embs, ?_, rfl, ?_, ?_⟩
  · rw [load_and_process_data_ok lib file_path docs nodes embs hload hn he]
  · simp [builtRouter, builtTools]
  · intro q i tool hsel htool
    have hsel' : lib.select [summaryToolMeta, vectorToolMeta] q = Except.ok i := by
      simpa [builtRouter, hmap] using hsel
    exact builtRouter_query lib nodes embs q i tool hsel' htool

/-- Witness for C1: the successful library `libEx` at a concrete path. -/
theorem C1_witness :
    ∃ qe : RouterQueryEngine,
      (load_and_process_data libEx "/tmp/upload0.pdf").1 = Except.ok qe ∧
      qe.selector = LLMSingleSelector.from_defaults ∧
      qe.query_engine_tools.length = 2 ∧
      (∀ q i tool,
        libEx.select (qe.query_engine_tools.map QueryEngineTool.metadata) q = Except.ok i →
        qe.query_engine_tools.get? i = some tool →
        qe.query libEx q =
          (tool.query_engine.answer libEx q,
           [Event.selectorCall q, Event.toolQuery i q])) :=
  C1_router_two_tools_single_choice libEx "/tmp/upload0.pdf" docsEx nodesEx embsEx
    rfl rfl rfl

/-- Claim C3: the setup routine, given a path, loads documents, splits
them into nodes, builds the two indices over those same nodes, wraps each
engine as a described tool, and returns the two-tool router with the LLM
selector — exactly these external steps, in this order. -/
theorem C3_setup_steps_in_order (lib : Lib) (file_path : String)
    (docs : List Document) (nodes : List Node) (embs : List (List Int))
    (hload : lib.load_data file_path = Except.ok docs)
    (hn : lib.get_nodes 1024 docs = Except.ok nodes)
    (he : lib.embed nodes = Except.ok embs) :
    load_and_process_data lib file_path =
      (Except.ok
        { selector := LLMSingleSelector.from_defaults,
          query_engine_tools :=
            [{ query_engine := QueryEngine.summary { nodes := nodes } "tree_summarize" true,
               metadata := { description := "Useful for summarizing the uploaded PDF." } },
             { query_engine := QueryEngine.vector { nodes := nodes, embeddings := embs },
               metadata :=
                 { description := "Useful for finding similar sentences in the uploaded PDF." } }],
          verbose := true },
       [Event.loadData file_path, Event.splitNodes 1024,
        Event.buildSummaryIndex, Event.buildVectorIndex]) := by
  rw [load_and_process_data_ok lib file_path docs nodes embs hload hn he]
  rfl

/-- Witness for C3 at `libEx`. -/
theorem C3_witness :
    load_and_process_data libEx "/tmp/upload0.pdf" =
      (Except.ok
        { selector := LLMSingleSelector.from_defaults,
          query_engine_tools :=
            [{ query_engine :=
                 QueryEngine.summary { nodes := nodesEx } "tree_summarize" true,
               metadata := { description := "Useful for summarizing the uploaded PDF." } },
             { query_engine := QueryEngine.vector { nodes := nodesEx, embeddings := embsEx },
               metadata :=
                 { description := "Useful for finding similar sentences in the uploaded PDF." } }],
          verbose := true },
       [Event.loadData "/tmp/upload0.pdf", Event.splitNodes 1024,
        Event.buildSummaryIndex, Event.buildVectorIndex]) :=
  C3_setup_steps_in_order libEx "/tmp/upload0.pdf" docsEx nodesEx embsEx rfl rfl rfl

/-- Claim C4: the `@st.cache_resource` memoization — once a call for a
path has succeeded, a further call with the same path returns the very
same cached engine and executes none of the body (no external calls). -/
theorem C4_cache_memoizes (lib : Lib) (cache : Cache) (file_path : String)
    (qe : RouterQueryEngine) (cache' : Cache) (evs : List Event)
    (h : cached_load_and_process_data lib cache file_path = (Except.ok (qe, cache'), evs)) :
    cached_load_and_process_data lib cache' file_path = (Except.ok (qe, cache'), []) := by
  unfold cached_load_and_process_data at h ⊢
  cases hlk : cache.lookup file_path with
  | some q =>
    rw [hlk] at h
    simp only [Prod.mk.injEq, Except.ok.injEq] at h
    obtain ⟨⟨hq, hc⟩, _⟩ := h
    subst hq
    subst hc
    rw [hlk]
  | none =>
    rw [hlk] at h
    cases hl : load_and_process_data lib file_path with
    | mk res evs2 =>
      rw [hl] at h
      cases res with
      | error e => simp at h
      | ok q =>
        simp only [Prod.mk.injEq, Except.ok.injEq] at h
        obtain ⟨⟨hq, hc⟩, _⟩ := h
        subst hq
        subst hc
        simp [List.lookup]

/-- Witness for C4: after the first (caching) call under `libEx`, the
second call returns the cached engine with an empty trace. -/
theorem C4_witness :
    cached_load_and_process_data libEx [("/tmp/upload0.pdf", qeEx)] "/tmp/upload0.pdf" =
      (Except.ok (qeEx, [("/tmp/upload0.pdf", qeEx)]), []) :=
  C4_cache_memoizes libEx [] "/tmp/upload0.pdf" qeEx [("/tmp/upload0.pdf", qeEx)]
    [Event.loadData "/tmp/upload0.pdf", Event.splitNodes 1024,
     Event.buildSummaryIndex, Event.buildVectorIndex] rfl

/-- Claim C6: the sentence splitter is constructed with chunk size 1024;
the only splitting call in the setup trace uses 1024, and both indices'
engines are built over exactly the nodes that splitter produced. -/
theorem C6_splitter_chunk_size_1024 (lib : Lib) (file_path : String)
    (docs : List Document) (nodes : List Node) (embs : List (List Int))
    (hload : lib.load_data file_path = Except.ok docs)
    (hn : SentenceSplitter.get_nodes_from_documents lib { chunk_size := 1024 } docs =
      Except.ok nodes)
    (he : lib.embed nodes = Except.ok embs) :
    (∀ c, Event.splitNodes c ∈ (load_and_process_data lib file_path).2 → c = 1024) ∧
    (∃ qe, (load_and_process_data lib file_path).1 = Except.ok qe ∧
      qe.query_engine_tools.map (fun t => t.query_engine) =
        [QueryEngine.summary { nodes := nodes } "tree_summarize" true,
         QueryEngine.vector { nodes := nodes, embeddings := embs }]) := by
  have h := load_and_process_data_ok lib file_path docs nodes embs hload hn he
  rw [h]
  constructor
  · intro c hc
    simp at hc
    exact hc
  · exact ⟨builtRouter nodes embs, rfl, by simp [builtRouter, builtTools]⟩

/-- Witness for C6 at `libEx`. -/
theorem C6_witness :
    (∀ c, Event.splitNodes c ∈ (load_and_process_data libEx "/tmp/upload0.pdf").2 →
      c = 1024) ∧
    (∃ qe, (load_and_process_data libEx "/tmp/upload0.pdf").1 = Except.ok qe ∧
      qe.query_engine_tools.map (fun t => t.query_engine) =
        [QueryEngine.summary { nodes := nodesEx } "tree_summarize" true,
         QueryEngine.vector { nodes := nodesEx, embeddings := embsEx }]) :=
  C6_splitter_chunk_size_1024 libEx "/tmp/upload0.pdf" docsEx nodesEx embsEx rfl rfl rfl

/-- Counterexample for C7: under `libEx` the setup succeeds, yet neither
tool carries a name — both metadata `name` fields are `none`, because the
script passes only `description` and the library default is `None`. -/
theorem C7_counterexample_no_tool_name :
    (load_and_process_data libEx "/tmp/upload0.pdf").1 = Except.ok qeEx ∧
    ¬ (∀ t ∈ qeEx.query_engine_tools, t.metadata.name ≠ none) := by
  refine ⟨rfl, fun h => ?_⟩
  exact h _ (List.mem_cons_self _ _) rfl

/-- Claim C7 (amended): each of the two tools carries a nonempty
natural-language description used by the selector, but no name: the
`name` field of both tools' metadata is `none`. -/
theorem C7_tools_described_but_unnamed (lib : Lib) (file_path : String)
    (docs : List Document) (nodes : List Node) (embs : List (List Int))
    (hload : lib.load_data file_path = Except.ok docs)
    (hn : lib.get_nodes 1024 docs = Except.ok nodes)
    (he : lib.embed nodes = Except.ok embs) :
    ∃ qe, (load_and_process_data lib file_path).1 = Except.ok qe ∧
      qe.query_engine_tools.map QueryEngineTool.metadata =
        [summaryToolMeta, vectorToolMeta] ∧
      (∀ t ∈ qe.query_engine_tools,
        t.metadata.name = none ∧ t.metadata.description ≠ "") := by
  refine ⟨builtRouter nodes embs, ?_, ?_, ?_⟩
  · rw [load_and_process_data_ok lib file_path docs nodes embs hload hn he]
  · simp [builtRouter, builtTools]
  · intro t ht
    simp [builtRouter, builtTools] at ht
    rcases ht with h | h <;>
      simp [h, summaryToolMeta, vectorToolMeta]

/-- Witness for C7's amended theorem at `libEx`. -/
theorem C7_witness :
    ∃ qe, (load_and_process_data libEx "/tmp/upload0.pdf").1 = Except.ok qe ∧
      qe.query_engine_tools.map QueryEngineTool.metadata =
        [summaryToolMeta, vectorToolMeta] ∧
      (∀ t ∈ qe.query_engine_tools,
        t.metadata.name = none ∧ t.metadata.description ≠ "") :=
  C7_tools_described_but_unnamed libEx "/tmp/upload0.pdf" docsEx nodesEx embsEx
    rfl rfl rfl

/-- Claim C9: a run with no uploaded file only renders informational
text — its whole trace consists of display events, among them the
`st.info` prompt, and it writes, builds, queries and deletes nothing. -/
theorem C9_no_file_only_info (lib : Lib) (cache : Cache) (inp : RunInput)
    (hup : inp.uploaded = none) :
    runApp lib cache inp =
      (Except.ok (), cache,
       [Event.renderTitle, Event.showInfo "Please upload a PDF file to begin."]
         ++ sidebarEvents) ∧
    (∀ ev ∈ runTrace lib cache inp, ev.isDisplay = true) := by
  have h : runApp lib cache inp =
      (Except.ok (), cache,
       [Event.renderTitle, Event.showInfo "Please upload a PDF file to begin."]
         ++ sidebarEvents) := by
    unfold runApp
    rw [hup]
  refine ⟨h, ?_⟩
  intro ev hev
  unfold runTrace at hev
  rw [h] at hev
  simp [sidebarEvents] at hev
  rcases hev with h1 | h1 | h1 | h1 | h1 | h1 <;> simp [h1, Event.isDisplay]

/-- Witness for C9 at a concrete no-file input. -/
theorem C9_witness :
    runApp libEx [] inpNoFile =
      (Except.ok (), [],
       [Event.renderTitle, Event.showInfo "Please upload a PDF file to begin."]
         ++ sidebarEvents) ∧
    (∀ ev ∈ runTrace libEx [] inpNoFile, ev.isDisplay = true) :=
  C9_no_file_only_info libEx [] inpNoFile rfl

/-- If document loading raises, the setup routine propagates the error
after the single load call. -/
theorem load_and_process_data_err_load (lib : Lib) (file_path : String) (e : String)
    (hload : lib.load_data file_path = Except.error e) :
    load_and_process_data lib file_path =
      (Except.error e, [Event.loadData file_path]) := by
  simp [load_and_process_data, hload]

/-- If node splitting raises, the setup routine propagates the error. -/
theorem load_and_process_data_err_nodes (lib : Lib) (file_path : String)
    (docs : List Document) (e : String)
    (hload : lib.load_data file_path = Except.ok docs)
    (hn : lib.get_nodes 1024 docs = Except.error e) :
    load_and_process_data lib file_path =
      (Except.error e, [Event.loadData file_path, Event.splitNodes 1024]) := by
  simp [load_and_process_data, SentenceSplitter.get_nodes_from_documents, hload, hn]

/-- If embedding during vector-index construction raises, the setup
routine propagates the error. -/
theorem load_and_process_data_err_embed (lib : Lib) (file_path : String)
    (docs : List Document) (nodes : List Node) (e : String)
    (hload : lib.load_data file_path = Except.ok docs)
    (hn : lib.get_nodes 1024 docs = Except.ok nodes)
    (he : lib.embed nodes = Except.error e) :
    load_and_process_data lib file_path =
      (Except.error e,
       [Event.loadData file_path, Event.splitNodes 1024, Event.buildSummaryIndex]) := by
  simp [load_and_process_data, SentenceSplitter.get_nodes_from_documents, hload, hn, he]

/-- The setup routine's trace always starts with the document load on the
path it was given, whatever the library does afterwards. -/
theorem load_and_process_data_trace_head (lib : Lib) (file_path : String) :
    ∃ evs2, (load_and_process_data lib file_path).2 =
      Event.loadData file_path :: evs2 := by
  rcases hload : lib.load_data file_path with e | docs
  · rw [load_and_process_data_err_load lib file_path e hload]
    exact ⟨[], rfl⟩
  rcases hn : lib.get_nodes 1024 docs with e | nodes
  · rw [load_and_process_data_err_nodes lib file_path docs e hload hn]
    exact ⟨_, rfl⟩
  rcases he : lib.embed nodes with e | embs
  · rw [load_and_process_data_err_embed lib file_path docs nodes e hload hn he]
    exact ⟨_, rfl⟩
  · rw [load_and_process_data_ok lib file_path docs nodes embs hload hn he]
    exact ⟨_, rfl⟩

/-- With an empty cache the memoized wrapper's trace is the body's. -/
theorem cached_trace_empty_cache (lib : Lib) (file_path : String) :
    (cached_load_and_process_data lib [] file_path).2 =
      (load_and_process_data lib file_path).2 := by
  unfold cached_load_and_process_data
  cases hl : load_and_process_data lib file_path with
  | mk res evs => cases res <;> simp [hl]

/-- Every uploaded run's trace is: title, temp-file creation, file write,
then the cached setup call's trace, then the rest of the run. -/
theorem runApp_uploaded_trace (lib : Lib) (cache : Cache) (inp : RunInput)
    (contents : List Nat) (hup : inp.uploaded = some contents) :
    ∃ tail, runTrace lib cache inp =
      [Event.renderTitle, Event.createTempFile false ".pdf" lib.tmp_path,
       Event.fileWrite lib.tmp_path contents]
        ++ (cached_load_and_process_data lib cache lib.tmp_path).2 ++ tail := by
  unfold runTrace runApp
  rw [hup]
  rcases hcl : cached_load_and_process_data lib cache lib.tmp_path with ⟨res, evs⟩
  rcases res with e | ⟨qe, cache'⟩
  · exact ⟨[], by simp [hcl]⟩
  rcases hb : inp.button_pressed
  · exact ⟨Event.unlinkTemp lib.tmp_path :: sidebarEvents, by simp [hcl, hb]⟩
  rcases hq : RouterQueryEngine.query lib qe inp.user_query with ⟨qres, qevs⟩
  rcases qres with e | response
  · exact ⟨qevs, by simp [hcl, hb, hq]⟩
  · exact ⟨qevs ++ [Event.writeText "Response:", Event.renderAnswer response,
            Event.unlinkTemp lib.tmp_path] ++ sidebarEvents, by simp [hcl, hb, hq]⟩

/-- Claim C10: on a fresh run with an uploaded file, the trace opens with
the creation of a `.pdf`-suffixed temp file with `delete=False`, the
write of exactly the uploaded bytes to that path, and the setup routine's
load of that very path. -/
theorem C10_temp_file_bytes_and_path (lib : Lib) (inp : RunInput)
    (contents : List Nat) (hup : inp.uploaded = some contents) :
    ∃ rest, runTrace lib [] inp =
      [Event.renderTitle, Event.createTempFile false ".pdf" lib.tmp_path,
       Event.fileWrite lib.tmp_path contents, Event.loadData lib.tmp_path] ++ rest := by
  obtain ⟨tail, htail⟩ := runApp_uploaded_trace lib [] inp contents hup
  obtain ⟨evs2, h2⟩ := load_and_process_data_trace_head lib lib.tmp_path
  rw [cached_trace_empty_cache, h2] at htail
  exact ⟨evs2 ++ tail, by simp [htail]⟩

/-- Witness for C10 at `libEx` and a concrete upload. -/
theorem C10_witness :
    ∃ rest, runTrace libEx [] inpEx =
      [Event.renderTitle, Event.createTempFile false ".pdf" libEx.tmp_path,
       Event.fileWrite libEx.tmp_path [37, 13],
       Event.loadData libEx.tmp_path] ++ rest :=
  C10_temp_file_bytes_and_path libEx inpEx [37, 13] rfl

/-- On an empty cache, a fully successful setup call stores and returns
the built router. -/
theorem cached_load_ok_empty (lib : Lib) (file_path : String)
    (docs : List Document) (nodes : List Node) (embs : List (List Int))
    (hload : lib.load_data file_path = Except.ok docs)
    (hn : lib.get_nodes 1024 docs = Except.ok nodes)
    (he : lib.embed nodes = Except.ok embs) :
    cached_load_and_process_data lib [] file_path =
      (Except.ok (builtRouter nodes embs, [(file_path, builtRouter nodes embs)]),
       [Event.loadData file_path, Event.splitNodes 1024,
        Event.buildSummaryIndex, Event.buildVectorIndex]) := by
  unfold cached_load_and_process_data
  rw [load_and_process_data_ok lib file_path docs nodes embs hload hn he]
  rfl

/-- A setup failure on an uploaded run is the run's result: the script
catches nothing between the setup call and the page. -/
theorem runApp_setup_err (lib : Lib) (inp : RunInput) (contents : List Nat)
    (e : String) (evs : List Event)
    (hup : inp.uploaded = some contents)
    (hl : load_and_process_data lib lib.tmp_path = (Except.error e, evs)) :
    runResult lib [] inp = Except.error e := by
  have hcl : cached_load_and_process_data lib [] lib.tmp_path = (Except.error e, evs) := by
    unfold cached_load_and_process_data
    rw [hl]
    rfl
  unfold runResult runApp
  rw [hup]
  simp [hcl]

/-- A query failure on a submitted run is the run's result, and the trace
stops at the failing query: no rendering, no unlink, no sidebar. -/
theorem runApp_query_err (lib : Lib) (inp : RunInput) (contents : List Nat)
    (e : String) (qe : RouterQueryEngine) (cache' : Cache) (evs qevs : List Event)
    (hup : inp.uploaded = some contents)
    (hbtn : inp.button_pressed = true)
    (hcl : cached_load_and_process_data lib [] lib.tmp_path = (Except.ok (qe, cache'), evs))
    (hq : qe.query lib inp.user_query = (Except.error e, qevs)) :
    runResult lib [] inp = Except.error e ∧
    runTrace lib [] inp =
      [Event.renderTitle, Event.createTempFile false ".pdf" lib.tmp_path,
       Event.fileWrite lib.tmp_path contents] ++ evs ++ qevs := by
  unfold runResult runTrace runApp
  rw [hup]
  constructor <;> simp [hcl, hbtn, hq]

/-- A fully successful submitted run, spelled out. -/
theorem runApp_submit_ok (lib : Lib) (inp : RunInput) (contents : List Nat)
    (qe : RouterQueryEngine) (cache' : Cache) (evs qevs : List Event) (ans : String)
    (hup : inp.uploaded = some contents)
    (hbtn : inp.button_pressed = true)
    (hcl : cached_load_and_process_data lib [] lib.tmp_path = (Except.ok (qe, cache'), evs))
    (hq : qe.query lib inp.user_query = (Except.ok ans, qevs)) :
    runApp lib [] inp =
      (Except.ok (), cache',
       [Event.renderTitle, Event.createTempFile false ".pdf" lib.tmp_path,
        Event.fileWrite lib.tmp_path contents]
         ++ evs ++ qevs
         ++ [Event.writeText "Response:", Event.renderAnswer ans,
             Event.unlinkTemp lib.tmp_path]
         ++ sidebarEvents) := by
  unfold runApp
  rw [hup]
  simp [hcl, hbtn, hq]

/-- If the selector call raises, the built router propagates the error
after its single selector call. -/
theorem builtRouter_query_selerr (lib : Lib) (nodes : List Node)
    (embs : List (List Int)) (q e : String)
    (hsel : lib.select [summaryToolMeta, vectorToolMeta] q = Except.error e) :
    (builtRouter nodes embs).query lib q = (Except.error e, [Event.selectorCall q]) := by
  have hmap : (builtTools nodes embs).map QueryEngineTool.metadata =
      [summaryToolMeta, vectorToolMeta] := by
    simp [builtTools]
  simp [RouterQueryEngine.query, builtRouter, hmap, hsel]

/-- Counterexample for C2: under `libEx`, a run with a file uploaded but
the Submit button not pressed deletes the temp file yet forwards no
question and renders no answer — so the claimed five-step pipeline does
not execute on every uploaded run. -/
theorem C2_counterexample_no_submit :
    Event.unlinkTemp "/tmp/upload0.pdf" ∈ runTrace libEx [] inpNoButton ∧
    (∀ a, Event.renderAnswer a ∉ runTrace libEx [] inpNoButton) ∧
    (∀ q, Event.selectorCall q ∉ runTrace libEx [] inpNoButton) := by
  have h : runTrace libEx [] inpNoButton =
      [Event.renderTitle,
       Event.createTempFile false ".pdf" "/tmp/upload0.pdf",
       Event.fileWrite "/tmp/upload0.pdf" [7],
       Event.loadData "/tmp/upload0.pdf", Event.splitNodes 1024,
       Event.buildSummaryIndex, Event.buildVectorIndex,
       Event.unlinkTemp "/tmp/upload0.pdf"] ++ sidebarEvents := rfl
  refine ⟨?_, ?_, ?_⟩ <;> simp [h, sidebarEvents]

/-- Claim C2 (amended): on every run in which a file is uploaded, the
Submit button is pressed, the setup is not yet cached and no library call
raises, the pipeline runs in order — temp write, setup from that path,
query, render — and the temp file is deleted only after the answer is
rendered. -/
theorem C2_pipeline_order_on_submit (lib : Lib) (inp : RunInput)
    (contents : List Nat) (docs : List Document) (nodes : List Node)
    (embs : List (List Int)) (i : Nat) (tool : QueryEngineTool) (ans : String)
    (hup : inp.uploaded = some contents)
    (hbtn : inp.button_pressed = true)
    (hload : lib.load_data lib.tmp_path = Except.ok docs)
    (hn : lib.get_nodes 1024 docs = Except.ok nodes)
    (he : lib.embed nodes = Except.ok embs)
    (hsel : lib.select [summaryToolMeta, vectorToolMeta] inp.user_query = Except.ok i)
    (htool : (builtTools nodes embs).get? i = some tool)
    (hans : tool.query_engine.answer lib inp.user_query = Except.ok ans) :
    runTrace lib [] inp =
      [Event.renderTitle,
       Event.createTempFile false ".pdf" lib.tmp_path,
       Event.fileWrite lib.tmp_path contents,
       Event.loadData lib.tmp_path, Event.splitNodes 1024,
       Event.buildSummaryIndex, Event.buildVectorIndex,
       Event.selectorCall inp.user_query, Event.toolQuery i inp.user_query,
       Event.writeText "Response:", Event.renderAnswer ans,
       Event.unlinkTemp lib.tmp_path] ++ sidebarEvents := by
  have hcl := cached_load_ok_empty lib lib.tmp_path docs nodes embs hload hn he
  have hq := builtRouter_query lib nodes embs inp.user_query i tool hsel htool
  rw [hans] at hq
  have h := runApp_submit_ok lib inp contents (builtRouter nodes embs) _ _ _ ans
    hup hbtn hcl hq
  unfold runTrace
  rw [h]
  simp

/-- Witness for C2's amended theorem: `libEx` with the button pressed. -/
theorem C2_witness :
    runTrace libEx [] inpEx =
      [Event.renderTitle,
       Event.createTempFile false ".pdf" libEx.tmp_path,
       Event.fileWrite libEx.tmp_path [37, 13],
       Event.loadData libEx.tmp_path, Event.splitNodes 1024,
       Event.buildSummaryIndex, Event.buildVectorIndex,
       Event.selectorCall inpEx.user_query, Event.toolQuery 0 inpEx.user_query,
       Event.writeText "Response:", Event.renderAnswer "a summary of the document",
       Event.unlinkTemp libEx.tmp_path] ++ sidebarEvents :=
  C2_pipeline_order_on_submit libEx inpEx [37, 13] docsEx nodesEx embsEx 0
    { query_engine := QueryEngine.summary { nodes := nodesEx } "tree_summarize" true,
      metadata := summaryToolMeta }
    "a summary of the document" rfl rfl rfl rfl rfl rfl rfl rfl

/-- Claim C5: the program catches nothing — an error raised by any of the
library calls it makes (loading, splitting, embedding/indexing, selector,
or the chosen tool's query) becomes, unchanged, the result of the run. -/
theorem C5_no_exception_caught (lib : Lib) (inp : RunInput) (contents : List Nat)
    (e : String) (hup : inp.uploaded = some contents) :
    (lib.load_data lib.tmp_path = Except.error e →
      runResult lib [] inp = Except.error e) ∧
    (∀ docs, lib.load_data lib.tmp_path = Except.ok docs →
      lib.get_nodes 1024 docs = Except.error e →
      runResult lib [] inp = Except.error e) ∧
    (∀ docs nodes, lib.load_data lib.tmp_path = Except.ok docs →
      lib.get_nodes 1024 docs = Except.ok nodes →
      lib.embed nodes = Except.error e →
      runResult lib [] inp = Except.error e) ∧
    (∀ docs nodes embs, lib.load_data lib.tmp_path = Except.ok docs →
      lib.get_nodes 1024 docs = Except.ok nodes →
      lib.embed nodes = Except.ok embs →
      inp.button_pressed = true →
      lib.select [summaryToolMeta, vectorToolMeta] inp.user_query = Except.error e →
      runResult lib [] inp = Except.error e) ∧
    (∀ docs nodes embs i tool, lib.load_data lib.tmp_path = Except.ok docs →
      lib.get_nodes 1024 docs = Except.ok nodes →
      lib.embed nodes = Except.ok embs →
      inp.button_pressed = true →
      lib.select [summaryToolMeta, vectorToolMeta] inp.user_query = Except.ok i →
      (builtTools nodes embs).get? i = some tool →
      tool.query_engine.answer lib inp.user_query = Except.error e →
      runResult lib [] inp = Except.error e) := by
  refine ⟨?_, ?_, ?_, ?_, ?_⟩
  · intro h
    exact runApp_setup_err lib inp contents e _ hup
      (load_and_process_data_err_load lib lib.tmp_path e h)
  · intro docs h1 h2
    exact runApp_setup_err lib inp contents e _ hup
      (load_and_process_data_err_nodes lib lib.tmp_path docs e h1 h2)
  · intro docs nodes h1 h2 h3
    exact runApp_setup_err lib inp contents e _ hup
      (load_and_process_data_err_embed lib lib.tmp_path docs nodes e h1 h2 h3)
  · intro docs nodes embs h1 h2 h3 hbtn hsel
    exact (runApp_query_err lib inp contents e _ _ _ _ hup hbtn
      (cached_load_ok_empty lib lib.tmp_path docs nodes embs h1 h2 h3)
      (builtRouter_query_selerr lib nodes embs inp.user_query e hsel)).1
  · intro docs nodes embs i tool h1 h2 h3 hbtn hsel htool hans
    have hq := builtRouter_query lib nodes embs inp.user_query i tool hsel htool
    rw [hans] at hq
    exact (runApp_query_err lib inp contents e _ _ _ _ hup hbtn
      (cached_load_ok_empty lib lib.tmp_path docs nodes embs h1 h2 h3) hq).1

/-- Witness for C5: a library whose loading raises `"boom"`; the run's
result is exactly that error. -/
theorem C5_witness :
    runResult libLoadFail [] inpEx = Except.error "boom" :=
  (C5_no_exception_caught libLoadFail inpEx [37, 13] "boom" rfl).1 rfl

/-- Claim C8: when the query raises on a submitted run, the unlink is
never reached — the temp file written at the start of the run persists. -/
theorem C8_temp_persists_on_query_failure (lib : Lib) (inp : RunInput)
    (contents : List Nat) (docs : List Document) (nodes : List Node)
    (embs : List (List Int)) (i : Nat) (tool : QueryEngineTool) (e : String)
    (hup : inp.uploaded = some contents)
    (hbtn : inp.button_pressed = true)
    (hload : lib.load_data lib.tmp_path = Except.ok docs)
    (hn : lib.get_nodes 1024 docs = Except.ok nodes)
    (he : lib.embed nodes = Except.ok embs)
    (hsel : lib.select [summaryToolMeta, vectorToolMeta] inp.user_query = Except.ok i)
    (htool : (builtTools nodes embs).get? i = some tool)
    (hans : tool.query_engine.answer lib inp.user_query = Except.error e) :
    runResult lib [] inp = Except.error e ∧
    Event.fileWrite lib.tmp_path contents ∈ runTrace lib [] inp ∧
    (∀ p, Event.unlinkTemp p ∉ runTrace lib [] inp) := by
  have hq := builtRouter_query lib nodes embs inp.user_query i tool hsel htool
  rw [hans] at hq
  have h := runApp_query_err lib inp contents e _ _ _ _ hup hbtn
    (cached_load_ok_empty lib lib.tmp_path docs nodes embs hload hn he) hq
  refine ⟨h.1, ?_, ?_⟩
  · rw [h.2]
    simp
  · intro p
    rw [h.2]
    simp

/-- Witness for C8: `libQueryFail` (tool query raises `"api down"`) at a
concrete submitted upload — the error propagates and no unlink occurs. -/
theorem C8_witness :
    runResult libQueryFail [] inpEx = Except.error "api down" ∧
    Event.fileWrite libQueryFail.tmp_path [37, 13] ∈ runTrace libQueryFail [] inpEx ∧
    (∀ p, Event.unlinkTemp p ∉ runTrace libQueryFail [] inpEx) :=
  C8_temp_persists_on_query_failure libQueryFail inpEx [37, 13] docsEx nodesEx embsEx 0
    { query_engine := QueryEngine.summary { nodes := nodesEx } "tree_summarize" true,
      metadata := summaryToolMeta }
    "api down" rfl rfl rfl rfl rfl rfl rfl rfl
